import Mathlib

/-!
Verification of the color classification engine of the FashionApp repository
(src/data_collection/color_extractor.py), shallowly embedded in Lean 4.

Modelling conventions:
- Python floats are modelled as exact rationals; the color-space conversions
  (colorsys.rgb_to_hls / rgb_to_hsv) are exact rational functions.
- The reference matcher compares square roots of integers in the source.
  We track SQUARED family-adjusted distances instead; since every distance and
  every adjustment factor is nonnegative and squaring is monotone on
  nonnegative reals, the argmin and every comparison are order-equivalent.
  The multipliers 0.5 / 1.5 / 1.3 on distances become 1/4, 9/4, 169/100 on
  squared distances, and the bound d <= 441.67 becomes d2 <= (44167/100)^2.
- Exceptions are modelled as Option / Except values; a per-cluster channel
  conversion that would raise (non-finite channel) is an entry whose rgb
  conversion is none.
-/

/-- Exact rational embedding of colorsys.rgb_to_hls (returns hue, lightness,
saturation, the hue normalized to [0,1)). -/
def rgbToHls (r g b : ℚ) : ℚ × ℚ × ℚ :=
  let maxc := max r (max g b)
  let minc := min r (min g b)
  let sumc := maxc + minc
  let rangec := maxc - minc
  let l := sumc / 2
  if minc = maxc then (0, l, 0)
  else
    let s := if l ≤ 1/2 then rangec / sumc else rangec / (2 - sumc)
    let rc := (maxc - r) / rangec
    let gc := (maxc - g) / rangec
    let bc := (maxc - b) / rangec
    let h := if r = maxc then bc - gc else if g = maxc then 2 + rc - bc else 4 + gc - rc
    (h/6 - (⌊h/6⌋ : ℚ), l, s)

/-- Exact rational embedding of colorsys.rgb_to_hsv (returns hue, saturation,
value). -/
def rgbToHsv (r g b : ℚ) : ℚ × ℚ × ℚ :=
  let maxc := max r (max g b)
  let minc := min r (min g b)
  let v := maxc
  if minc = maxc then (0, 0, v)
  else
    let rangec := maxc - minc
    let s := rangec / maxc
    let rc := (maxc - r) / rangec
    let gc := (maxc - g) / rangec
    let bc := (maxc - b) / rangec
    let h := if r = maxc then bc - gc else if g = maxc then 2 + rc - bc else 4 + gc - rc
    (h/6 - (⌊h/6⌋ : ℚ), s, v)

/-- The CSS_COLORS table of color_extractor.py, in source (dict-insertion)
order. -/
def cssColors : List (String × ℤ × ℤ × ℤ) := [
  ("aliceblue", 240, 248, 255),
  ("antiquewhite", 250, 235, 215),
  ("aqua", 0, 255, 255),
  ("aquamarine", 127, 255, 212),
  ("azure", 240, 255, 255),
  ("beige", 245, 245, 220),
  ("bisque", 255, 228, 196),
  ("black", 0, 0, 0),
  ("blanchedalmond", 255, 235, 205),
  ("blue", 0, 0, 255),
  ("blueviolet", 138, 43, 226),
  ("brown", 165, 42, 42),
  ("burlywood", 222, 184, 135),
  ("cadetblue", 95, 158, 160),
  ("chartreuse", 127, 255, 0),
  ("chocolate", 210, 105, 30),
  ("coral", 255, 127, 80),
  ("cornflowerblue", 100, 149, 237),
  ("cornsilk", 255, 248, 220),
  ("crimson", 220, 20, 60),
  ("cyan", 0, 255, 255),
  ("darkblue", 0, 0, 139),
  ("darkcyan", 0, 139, 139),
  ("darkgoldenrod", 184, 134, 11),
  ("darkgray", 169, 169, 169),
  ("darkgreen", 0, 100, 0),
  ("darkgrey", 169, 169, 169),
  ("darkkhaki", 189, 183, 107),
  ("darkmagenta", 139, 0, 139),
  ("darkolivegreen", 85, 107, 47),
  ("darkorange", 255, 140, 0),
  ("darkorchid", 153, 50, 204),
  ("darkred", 139, 0, 0),
  ("darksalmon", 233, 150, 122),
  ("darkseagreen", 143, 188, 143),
  ("darkslateblue", 72, 61, 139),
  ("darkslategray", 47, 79, 79),
  ("darkslategrey", 47, 79, 79),
  ("darkturquoise", 0, 206, 209),
  ("darkviolet", 148, 0, 211),
  ("deeppink", 255, 20, 147),
  ("deepskyblue", 0, 191, 255),
  ("dimgray", 105, 105, 105),
  ("dimgrey", 105, 105, 105),
  ("dodgerblue", 30, 144, 255),
  ("firebrick", 178, 34, 34),
  ("floralwhite", 255, 250, 240),
  ("forestgreen", 34, 139, 34),
  ("fuchsia", 255, 0, 255),
  ("gainsboro", 220, 220, 220),
  ("ghostwhite", 248, 248, 255),
  ("gold", 255, 215, 0),
  ("goldenrod", 218, 165, 32),
  ("gray", 128, 128, 128),
  ("grey", 128, 128, 128),
  ("green", 0, 128, 0),
  ("greenyellow", 173, 255, 47),
  ("honeydew", 240, 255, 240),
  ("hotpink", 255, 105, 180),
  ("indianred", 205, 92, 92),
  ("indigo", 75, 0, 130),
  ("ivory", 255, 255, 240),
  ("khaki", 240, 230, 140),
  ("lavender", 230, 230, 250),
  ("lavenderblush", 255, 240, 245),
  ("lawngreen", 124, 252, 0),
  ("lemonchiffon", 255, 250, 205),
  ("lightblue", 173, 216, 230),
  ("lightcoral", 240, 128, 128),
  ("lightcyan", 224, 255, 255),
  ("lightgoldenrodyellow", 250, 250, 210),
  ("lightgray", 211, 211, 211),
  ("lightgreen", 144, 238, 144),
  ("lightgrey", 211, 211, 211),
  ("lightpink", 255, 182, 193),
  ("lightsalmon", 255, 160, 122),
  ("lightseagreen", 32, 178, 170),
  ("lightskyblue", 135, 206, 250),
  ("lightslategray", 119, 136, 153),
  ("lightslategrey", 119, 136, 153),
  ("lightsteelblue", 176, 196, 222),
  ("lightyellow", 255, 255, 224),
  ("lime", 0, 255, 0),
  ("limegreen", 50, 205, 50),
  ("linen", 250, 240, 230),
  ("magenta", 255, 0, 255),
  ("maroon", 128, 0, 0),
  ("mediumaquamarine", 102, 205, 170),
  ("mediumblue", 0, 0, 205),
  ("mediumorchid", 186, 85, 211),
  ("mediumpurple", 147, 112, 219),
  ("mediumseagreen", 60, 179, 113),
  ("mediumslateblue", 123, 104, 238),
  ("mediumspringgreen", 0, 250, 154),
  ("mediumturquoise", 72, 209, 204),
  ("mediumvioletred", 199, 21, 133),
  ("midnightblue", 25, 25, 112),
  ("mintcream", 245, 255, 250),
  ("mistyrose", 255, 228, 225),
  ("moccasin", 255, 228, 181),
  ("navajowhite", 255, 222, 173),
  ("navy", 0, 0, 128),
  ("oldlace", 253, 245, 230),
  ("olive", 128, 128, 0),
  ("olivedrab", 107, 142, 35),
  ("orange", 255, 165, 0),
  ("orangered", 255, 69, 0),
  ("orchid", 218, 112, 214),
  ("palegoldenrod", 238, 232, 170),
  ("palegreen", 152, 251, 152),
  ("paleturquoise", 175, 238, 238),
  ("palevioletred", 219, 112, 147),
  ("papayawhip", 255, 239, 213),
  ("peachpuff", 255, 218, 185),
  ("peru", 205, 133, 63),
  ("pink", 255, 192, 203),
  ("plum", 221, 160, 221),
  ("powderblue", 176, 224, 230),
  ("purple", 128, 0, 128),
  ("rebeccapurple", 102, 51, 153),
  ("red", 255, 0, 0),
  ("rosybrown", 188, 143, 143),
  ("royalblue", 65, 105, 225),
  ("saddlebrown", 139, 69, 19),
  ("salmon", 250, 128, 114),
  ("sandybrown", 244, 164, 96),
  ("seagreen", 46, 139, 87),
  ("seashell", 255, 245, 238),
  ("sienna", 160, 82, 45),
  ("silver", 192, 192, 192),
  ("skyblue", 135, 206, 235),
  ("slateblue", 106, 90, 205),
  ("slategray", 112, 128, 144),
  ("slategrey", 112, 128, 144),
  ("snow", 255, 250, 250),
  ("springgreen", 0, 255, 127),
  ("steelblue", 70, 130, 180),
  ("tan", 210, 180, 140),
  ("teal", 0, 128, 128),
  ("thistle", 216, 191, 216),
  ("tomato", 255, 99, 71),
  ("turquoise", 64, 224, 208),
  ("violet", 238, 130, 238),
  ("wheat", 245, 222, 179),
  ("white", 255, 255, 255),
  ("whitesmoke", 245, 245, 245),
  ("yellow", 255, 255, 0),
  ("yellowgreen", 154, 205, 50)]

/-- Boolean test that pat is a leading segment of s (character lists). -/
def listStarts : List Char → List Char → Bool
  | [], _ => true
  | _ :: _, [] => false
  | p :: ps, c :: cs => p == c && listStarts ps cs

/-- Boolean test that pat occurs contiguously inside s, as the Python operator
"pat in s" on strings. -/
def listHas (pat : List Char) : List Char → Bool
  | [] => listStarts pat []
  | c :: rest => listStarts pat (c :: rest) || listHas pat rest

/-- The Python test kw in name on strings. -/
def strHas (name kw : String) : Bool := listHas kw.toList name.toList

/-- The family_keywords table of _find_closest_css_color. -/
def familyKeywords (fam : String) : List String :=
  if fam = "red" then ["red", "crimson", "maroon", "firebrick", "tomato", "salmon", "indianred"]
  else if fam = "orange" then ["orange", "coral", "chocolate", "sienna", "peru", "tan", "goldenrod"]
  else if fam = "yellow" then ["yellow", "gold", "khaki", "beige", "lemon", "ivory"]
  else if fam = "green" then ["green", "olive", "lime", "forest", "seagreen", "springgreen", "lawngreen"]
  else if fam = "cyan" then ["cyan", "aqua", "turquoise", "teal"]
  else if fam = "blue" then ["blue", "navy", "slateblue", "royalblue", "dodgerblue", "skyblue", "steelblue", "midnightblue"]
  else if fam = "purple" then ["purple", "violet", "indigo", "orchid", "plum", "rebeccapurple"]
  else if fam = "pink" then ["pink", "hotpink", "lightpink", "deeppink", "palevioletred"]
  else if fam = "gray" then ["gray", "grey", "slate", "silver", "gainsboro", "whitesmoke", "dimgray", "darkgray", "lightgray"]
  else if fam = "white" then ["white", "snow", "ivory", "floralwhite", "ghostwhite", "seashell", "linen", "oldlace"]
  else if fam = "black" then ["black"]
  else []

/-- Whether any keyword of the family occurs inside the catalog name, as in
the any(kw in css_name_lower ...) checks of _find_closest_css_color. -/
def kwMatch (fam name : String) : Bool :=
  (familyKeywords fam).any (fun kw => strHas name kw)

/-- The hue-family bucketing chain of _find_closest_css_color, taking
lightness, saturation (both in [0,1]) and hue in degrees. -/
def familyOf (l s hDeg : ℚ) : String :=
  if l > 85/100 then "white"
  else if l < 15/100 then "black"
  else if s < 15/100 then "gray"
  else if hDeg < 15 ∨ hDeg ≥ 345 then "red"
  else if hDeg < 45 then "orange"
  else if hDeg < 75 then "yellow"
  else if hDeg < 165 then "green"
  else if hDeg < 195 then "cyan"
  else if hDeg < 255 then "blue"
  else if hDeg < 285 then "purple"
  else if hDeg < 315 then "pink"
  else "red"

/-- The color family computed by _find_closest_css_color from the rgb triple
via colorsys.rgb_to_hls. -/
def colorFamily (rgb : ℤ × ℤ × ℤ) : String :=
  let hls := rgbToHls ((rgb.1 : ℚ)/255) ((rgb.2.1 : ℚ)/255) ((rgb.2.2 : ℚ)/255)
  familyOf hls.2.1 hls.2.2 (hls.1 * 360)

/-- Squared Euclidean RGB distance between two integer triples. -/
def sqDist (a e : ℤ × ℤ × ℤ) : ℤ :=
  (a.1 - e.1)^2 + (a.2.1 - e.2.1)^2 + (a.2.2 - e.2.2)^2

/-- Squared form of the distance adjustment factors of
_find_closest_css_color: x0.5 for a family-keyword match, x1.5 for a gray
keyword on a colorful family, x1.3 for a non-family name on a neutral family;
on squared distances these are 1/4, 9/4 and 169/100. -/
def factorSq (fam name : String) : ℚ :=
  (if kwMatch fam name then 1/4 else 1) *
  (if ¬(fam = "gray" ∨ fam = "white" ∨ fam = "black") ∧ kwMatch "gray" name then 9/4 else 1) *
  (if (fam = "gray" ∨ fam = "white" ∨ fam = "black") ∧ ¬ kwMatch fam name then 169/100 else 1)

/-- Squared family-adjusted distance of an rgb triple to one catalog entry. -/
def adjSqDist (fam : String) (rgb : ℤ × ℤ × ℤ) (e : String × ℤ × ℤ × ℤ) : ℚ :=
  (sqDist rgb e.2 : ℚ) * factorSq fam e.1

/-- One iteration of the minimum search of _find_closest_css_color; the
accumulator holds the best name and (squared) best distance so far, none
standing for the initial float(inf). -/
def stepEntry (fam : String) (rgb : ℤ × ℤ × ℤ) (acc : String × Option ℚ)
    (e : String × ℤ × ℤ × ℤ) : String × Option ℚ :=
  match acc.2 with
  | none => (e.1, some (adjSqDist fam rgb e))
  | some m => if adjSqDist fam rgb e < m then (e.1, some (adjSqDist fam rgb e)) else acc

/-- The _find_closest_css_color matcher. Returns the nearest catalog name
together with the minimal squared family-adjusted distance (the source
returns the square root of this value divided by 441.67; comparisons and the
argmin are unchanged by squaring). Ties keep the earlier catalog entry, as
the strict comparison of the source does. -/
def findClosestCssColor (rgb : ℤ × ℤ × ℤ) : String × ℚ :=
  let res := cssColors.foldl (stepEntry (colorFamily rgb) rgb) ("black", none)
  (res.1, res.2.getD 0)

/-- The analysis record produced per palette entry by _analyze_color. -/
structure Analysis where
  tone : String
  hue : String
  shade : String
  saturation : String
  temperature : String
  is_neutral : Bool
  lightness : ℚ
  saturation_value : ℚ
deriving DecidableEq

/-- The tone chain of _analyze_color. -/
def toneOf (l s hDeg : ℚ) : String :=
  if l < 15/100 then "black"
  else if l > 85/100 then "white"
  else if s < 15/100 then "neutral"
  else if hDeg < 30 ∨ hDeg ≥ 330 then "red"
  else if hDeg < 60 then "orange"
  else if hDeg < 90 then "yellow"
  else if hDeg < 150 then "green"
  else if hDeg < 210 then "blue"
  else if hDeg < 270 then "purple"
  else if hDeg < 330 then "pink"
  else "red"

/-- The hue chain of _analyze_color. -/
def hueOf (hDeg : ℚ) : String :=
  if hDeg < 15 ∨ hDeg ≥ 345 then "red"
  else if hDeg < 45 then "orange"
  else if hDeg < 75 then "yellow"
  else if hDeg < 165 then "green"
  else if hDeg < 255 then "blue"
  else if hDeg < 285 then "purple"
  else if hDeg < 315 then "pink"
  else "red"

/-- The shade chain of _analyze_color. -/
def shadeOf (l : ℚ) : String :=
  if l < 2/10 then "dark"
  else if l < 4/10 then "medium-dark"
  else if l < 6/10 then "medium"
  else if l < 8/10 then "medium-light"
  else "light"

/-- The saturation chain of _analyze_color. -/
def saturationCharacterOf (s : ℚ) : String :=
  if s < 2/10 then "muted"
  else if s < 5/10 then "soft"
  else if s < 8/10 then "vibrant"
  else "intense"

/-- The temperature rule of _analyze_color. -/
def temperatureOf (hDeg : ℚ) : String :=
  if hDeg < 90 ∨ hDeg ≥ 270 then "warm" else "cool"

/-- The _analyze_color function: rgb and hsv are accepted as the source does
but only the hsl components feed the classification. -/
def analyzeColor (rgb : ℤ × ℤ × ℤ) (hsl hsv : ℚ × ℚ × ℚ) : Analysis :=
  let h := hsl.1
  let l := hsl.2.1
  let s := hsl.2.2
  let hDeg := h * 360
  { tone := toneOf l s hDeg
    hue := hueOf hDeg
    shade := shadeOf l
    saturation := saturationCharacterOf s
    temperature := temperatureOf hDeg
    is_neutral := decide (s < 15/100 ∨ l < 15/100 ∨ l > 85/100)
    lightness := l
    saturation_value := s }

/-- The _is_background_color classifier. -/
def isBackgroundColor (percentage : ℚ) (analysis : Analysis) : Bool :=
  if analysis.lightness > 9/10 ∧ percentage > 5 then true
  else if analysis.tone = "white" ∧ percentage > 15 then true
  else if percentage > 50 then true
  else if analysis.lightness > 7/10 ∧ analysis.saturation_value < 1/10 ∧ percentage > 30 then true
  else false

/-- Lowercase hexadecimal digit character. -/
def hexDigitChar (n : ℕ) : Char :=
  if n < 10 then Char.ofNat (48 + n) else Char.ofNat (87 + n)

/-- Two-digit lowercase hex rendering of one clamped channel, as the Python
format specifier 02x on a value in [0,255]. -/
def byteToHex (n : ℤ) : String :=
  String.mk [hexDigitChar (n.toNat / 16 % 16), hexDigitChar (n.toNat % 16)]

/-- Hex color string built at palette-entry construction. -/
def rgbToHex (r g b : ℤ) : String :=
  "#" ++ byteToHex r ++ byteToHex g ++ byteToHex b

/-- The hsl sub-dictionary stored per palette entry (degrees and percents). -/
structure HslOut where
  hue : ℚ
  saturation : ℚ
  lightness : ℚ
deriving DecidableEq

/-- The hsv sub-dictionary stored per palette entry (degrees and percents). -/
structure HsvOut where
  hue : ℚ
  saturation : ℚ
  value : ℚ
deriving DecidableEq

/-- One enriched palette entry, the color_data dictionary built identically
on the primary and on the fallback extraction path. -/
structure ColorData where
  rgb : ℤ × ℤ × ℤ
  hex : String
  css_color : String
  css_distance : ℚ
  hsl : HslOut
  hsv : HsvOut
  analysis : Analysis
  percentage : ℚ
  is_background : Bool
deriving DecidableEq

/-- Channel clamping tuple(max(0, min(255, int(c)))) applied to each raw
cluster channel. -/
def clampChannel (c : ℤ) : ℤ := max 0 (min 255 c)

/-- The shared per-cluster enrichment: clamp the channels, convert to HSL and
HSV, analyze, match against the catalog, classify background. This is the
body of the per-color loop of extract_colors_from_image and of
_extract_colors_sklearn. -/
def processColor (rgb : ℤ × ℤ × ℤ) (percentage : ℚ) : ColorData :=
  let r := clampChannel rgb.1
  let g := clampChannel rgb.2.1
  let b := clampChannel rgb.2.2
  let hsl := rgbToHls ((r : ℚ)/255) ((g : ℚ)/255) ((b : ℚ)/255)
  let hsv := rgbToHsv ((r : ℚ)/255) ((g : ℚ)/255) ((b : ℚ)/255)
  let analysis := analyzeColor (r, g, b) hsl hsv
  let closest := findClosestCssColor (r, g, b)
  { rgb := (r, g, b)
    hex := rgbToHex r g b
    css_color := closest.1
    css_distance := closest.2
    hsl := ⟨hsl.1 * 360, hsl.2.2 * 100, hsl.2.1 * 100⟩
    hsv := ⟨hsv.1 * 360, hsv.2.1 * 100, hsv.2.2 * 100⟩
    analysis := analysis
    percentage := percentage
    is_background := isBackgroundColor percentage analysis }

/-- One raw cluster emitted by a clustering backend: the integer rgb triple
if channel conversion succeeds (none models a raised per-color exception,
e.g. a non-finite channel), and the percentage weight. -/
structure RawColor where
  conv : Option (ℤ × ℤ × ℤ)
  percentage : ℚ
deriving DecidableEq

/-- Per-color processing on the primary (Pylette) path: a failing entry is
skipped by the continue statement of the source. -/
def processRaw (c : RawColor) : Option ColorData :=
  c.conv.map (fun rgb => processColor rgb c.percentage)

/-- The neutral placeholder entry appended by _extract_colors_sklearn when a
per-color conversion fails: mid-gray, zero percentage, is_background forced
to false. -/
def grayFallbackEntry : ColorData :=
  let fallbackRgb : ℤ × ℤ × ℤ := (128, 128, 128)
  let fallbackHsl := rgbToHls (1/2) (1/2) (1/2)
  let fallbackHsv := rgbToHsv (1/2) (1/2) (1/2)
  let fallbackAnalysis := analyzeColor fallbackRgb fallbackHsl fallbackHsv
  let closest := findClosestCssColor fallbackRgb
  { rgb := fallbackRgb
    hex := "#808080"
    css_color := closest.1
    css_distance := closest.2
    hsl := ⟨fallbackHsl.1 * 360, fallbackHsl.2.2 * 100, fallbackHsl.2.1 * 100⟩
    hsv := ⟨fallbackHsv.1 * 360, fallbackHsv.2.1 * 100, fallbackHsv.2.2 * 100⟩
    analysis := fallbackAnalysis
    percentage := 0
    is_background := false }

/-- The per-cluster loop of _extract_colors_sklearn followed by the final
truncation: a failing entry is replaced by the gray placeholder, never
dropped. -/
def sklearnProcess (raws : List RawColor) (paletteSize : ℕ) : List ColorData :=
  (raws.map (fun c =>
    match c.conv with
    | some rgb => processColor rgb c.percentage
    | none => grayFallbackEntry)).take paletteSize

/-- The _extract_colors_sklearn entry point; none models the outer exception
handler returning an empty list when clustering itself fails. -/
def sklearnExtract (clusters : Option (List RawColor)) (paletteSize : ℕ) : List ColorData :=
  match clusters with
  | none => []
  | some raws => sklearnProcess raws paletteSize

/-- The extract_colors_from_image dispatcher: primary = none models Pylette
being unavailable or raising; an empty processed list on the primary path
raises and also falls through to sklearn; otherwise the primary list is
truncated to paletteSize. -/
def extractColorsFromImage (paletteSize : ℕ) (primary : Option (List RawColor))
    (fallback : Option (List RawColor)) : List ColorData :=
  match primary with
  | some raws =>
    let colorsData := raws.filterMap processRaw
    if colorsData.isEmpty then sklearnExtract fallback paletteSize
    else colorsData.take paletteSize
  | none => sklearnExtract fallback paletteSize

/-- The _remove_background_color filter: drop flagged entries, but if that
removes everything keep exactly the first entry of the original palette. -/
def removeBackgroundColor (colorsData : List ColorData) : List ColorData :=
  let filtered := colorsData.filter (fun c => !c.is_background)
  if filtered.isEmpty then
    match colorsData with
    | [] => filtered
    | c :: _ => [c]
  else filtered

/-- The dominant-selection score of get_dominant_colors_summary. -/
def colorScore (c : ColorData) : ℚ :=
  (if c.analysis.is_neutral then -1000 else 0) + c.analysis.saturation_value * 100
    + c.percentage * (1/10)

/-- First entry attaining the maximal score: the head of the stable
descending sort of the source (a later entry replaces the current best only
on a strictly larger score). -/
def selectDominant : List ColorData → Option ColorData
  | [] => none
  | c :: cs => some (cs.foldl (fun best x => if colorScore best < colorScore x then x else best) c)

/-- Increment of one key of a Python counting dictionary: an existing key
keeps its position, a new key is appended. -/
def bump (m : List (String × ℕ)) (k : String) : List (String × ℕ) :=
  if m.any (fun p => p.1 == k) then
    m.map (fun p => if p.1 == k then (p.1, p.2 + 1) else p)
  else m ++ [(k, 1)]

/-- The tone_counts dictionary of get_dominant_colors_summary. -/
def toneDistribution (colorsData : List ColorData) : List (String × ℕ) :=
  colorsData.foldl (fun m c => bump m c.analysis.tone) []

/-- The hue_counts dictionary of get_dominant_colors_summary. -/
def hueDistribution (colorsData : List ColorData) : List (String × ℕ) :=
  colorsData.foldl (fun m c => bump m c.analysis.hue) []

/-- The shade_counts dictionary of get_dominant_colors_summary. -/
def shadeDistribution (colorsData : List ColorData) : List (String × ℕ) :=
  colorsData.foldl (fun m c => bump m c.analysis.shade) []

/-- The css_color_counts dictionary of get_dominant_colors_summary. -/
def cssColorDistribution (colorsData : List ColorData) : List (String × ℕ) :=
  colorsData.foldl (fun m c => bump m c.css_color) []

/-- Number of entries counted warm: the branch temperature == warm. -/
def warmCount (colorsData : List ColorData) : ℕ :=
  colorsData.countP (fun c => c.analysis.temperature == "warm")

/-- Number of entries counted cool: the else branch of the same loop. -/
def coolCount (colorsData : List ColorData) : ℕ :=
  colorsData.countP (fun c => !(c.analysis.temperature == "warm"))

/-- Number of entries flagged neutral. -/
def neutralCount (colorsData : List ColorData) : ℕ :=
  colorsData.countP (fun c => c.analysis.is_neutral)

/-- First maximal item of a counting dictionary, as the Python max with a
count key (the earliest maximal pair wins). -/
def firstMax : List (String × ℕ) → Option (String × ℕ)
  | [] => none
  | p :: ps => some (ps.foldl (fun best x => if best.2 < x.2 then x else best) p)

/-- Mode of a distribution, unknown when it is empty. -/
def overallOf (dist : List (String × ℕ)) : String :=
  match firstMax dist with
  | some p => p.1
  | none => "unknown"

/-- Values stored in the summary dictionaries. -/
structure DominantInfo where
  rgb : ℤ × ℤ × ℤ
  hex : String
  css_color : String
  tone : String
  hue : String
  shade : String
  percentage : ℚ
deriving DecidableEq

/-- One value of a summary dictionary entry. -/
inductive Val where
  | vnull : Val
  | vstr : String → Val
  | vnat : ℕ → Val
  | vdom : DominantInfo → Val
  | vdist : List (String × ℕ) → Val
deriving DecidableEq

/-- The summary returned by get_dominant_colors_summary for an empty palette
(its early-return dictionary). -/
def emptyPaletteSummary : List (String × Val) :=
  [("dominant_color", Val.vnull),
   ("overall_tone", Val.vstr "unknown"),
   ("overall_hue", Val.vstr "unknown"),
   ("overall_shade", Val.vstr "unknown"),
   ("color_count", Val.vnat 0),
   ("neutral_colors", Val.vnat 0),
   ("warm_colors", Val.vnat 0),
   ("cool_colors", Val.vnat 0)]

/-- The get_dominant_colors_summary aggregation, as an association list in
the key order of the source dictionary. -/
def getDominantColorsSummary : List ColorData → List (String × Val)
  | [] => emptyPaletteSummary
  | c0 :: rest =>
    let colorsData := c0 :: rest
    let filtered := removeBackgroundColor colorsData
    let candidates := if filtered.isEmpty then colorsData else filtered
    let dominant := (selectDominant candidates).getD c0
    [("dominant_color", Val.vdom
       { rgb := dominant.rgb
         hex := dominant.hex
         css_color := dominant.css_color
         tone := dominant.analysis.tone
         hue := dominant.analysis.hue
         shade := dominant.analysis.shade
         percentage := dominant.percentage }),
     ("overall_tone", Val.vstr (overallOf (toneDistribution colorsData))),
     ("overall_hue", Val.vstr (overallOf (hueDistribution colorsData))),
     ("overall_shade", Val.vstr (overallOf (shadeDistribution colorsData))),
     ("overall_css_color", Val.vstr (overallOf (cssColorDistribution colorsData))),
     ("color_count", Val.vnat colorsData.length),
     ("neutral_colors", Val.vnat (neutralCount colorsData)),
     ("warm_colors", Val.vnat (warmCount colorsData)),
     ("cool_colors", Val.vnat (coolCount colorsData)),
     ("tone_distribution", Val.vdist (toneDistribution colorsData)),
     ("hue_distribution", Val.vdist (hueDistribution colorsData)),
     ("shade_distribution", Val.vdist (shadeDistribution colorsData)),
     ("css_color_distribution", Val.vdist (cssColorDistribution colorsData))]

/-- The top-level result dictionary of extract_colors_from_product_image;
the error key is present only on the failure paths. -/
structure ProductResult where
  success : Bool
  error : Option String
  colors : List ColorData
  summary : List (String × Val)
deriving DecidableEq

/-- The default summary dictionary written (twice, identically) by the two
failure branches of extract_colors_from_product_image. -/
def defaultFailureSummary : List (String × Val) :=
  [("dominant_color", Val.vnull),
   ("overall_tone", Val.vstr "unknown"),
   ("overall_hue", Val.vstr "unknown"),
   ("overall_shade", Val.vstr "unknown"),
   ("color_count", Val.vnat 0),
   ("neutral_colors", Val.vnat 0)]

/-- The extract_colors_from_product_image boundary: its argument is the
outcome of extraction (a raised exception is an error value), and it always
returns a result record instead of raising. -/
def extractColorsFromProductImage (res : Except String (List ColorData)) : ProductResult :=
  match res with
  | .error e =>
    { success := false, error := some e, colors := [], summary := defaultFailureSummary }
  | .ok colorsData =>
    if colorsData.isEmpty then
      { success := false, error := some "No colors extracted", colors := [],
        summary := defaultFailureSummary }
    else
      { success := true, error := none, colors := colorsData,
        summary := getDominantColorsSummary colorsData }

/-- The fixed random_state passed to the fallback KMeans clustering. -/
def randomSeed : ℕ := 42

/-- One fallback-path engine invocation over a pixel grid: the abstract
clustering backend is called with the fixed seed and paletteSize + 1
clusters, the per-color loop and truncation run, and the summary is built. -/
def engineRunFallback (kmeans : ℕ → ℕ → List (ℕ × ℕ × ℕ) → List RawColor)
    (paletteSize : ℕ) (pixels : List (ℕ × ℕ × ℕ)) :
    List ColorData × List (String × Val) :=
  let colors := sklearnProcess (kmeans randomSeed (paletteSize + 1) pixels) paletteSize
  (colors, getDominantColorsSummary colors)
set_option maxRecDepth 100000 in
/-- C1 (counterexample): on RGB (0,0,255) the analyzer of the source places
hue 240 in the 210-270 bucket, so the tone is purple, not blue as the claim
states. -/
theorem c1_tone_counterexample :
    (processColor (0, 0, 255) 50).analysis.tone ≠ "blue" ∧
    (processColor (0, 0, 255) 50).analysis.tone = "purple" := by
  with_unfolding_all decide

set_option maxRecDepth 100000 in
/-- C1 (amended): for RGB (0,0,255) the analyzer yields hsl hue 240, tone
purple, saturation character intense, temperature cool, not neutral, and the
reference matcher returns the blue-family catalog name blue. -/
theorem c1_scenario_c_amended :
    (processColor (0, 0, 255) 50).hsl.hue = 240 ∧
    (processColor (0, 0, 255) 50).analysis.tone = "purple" ∧
    (processColor (0, 0, 255) 50).analysis.saturation = "intense" ∧
    (processColor (0, 0, 255) 50).analysis.temperature = "cool" ∧
    (processColor (0, 0, 255) 50).analysis.is_neutral = false ∧
    (processColor (0, 0, 255) 50).css_color = "blue" ∧
    kwMatch "blue" (processColor (0, 0, 255) 50).css_color = true := by
  with_unfolding_all decide

set_option maxRecDepth 100000 in
/-- C5 (counterexample): the failure summary written by
extract_colors_from_product_image carries no warm_colors, cool_colors or
overall_css_color key at all, so those counts and the overall reference
color are not reported as zero or unknown. -/
theorem c5_missing_keys_counterexample :
    (extractColorsFromProductImage (Except.error "boom")).success = false ∧
    (extractColorsFromProductImage (Except.error "boom")).summary.lookup "warm_colors" = none ∧
    (extractColorsFromProductImage (Except.error "boom")).summary.lookup "cool_colors" = none ∧
    (extractColorsFromProductImage (Except.error "boom")).summary.lookup "overall_css_color" = none := by
  with_unfolding_all decide

/-- C5 (amended): on total extraction failure (exception or empty palette)
the result has success false, empty colors, and the fixed default summary:
dominant color null, overall tone, hue and shade unknown, color_count and
neutral_colors zero; the overall reference color and the warm and cool
counts are absent from that summary; the boundary returns data instead of
raising. -/
theorem c5_failure_defaults (e : String) :
    (extractColorsFromProductImage (Except.error e)).success = false ∧
    (extractColorsFromProductImage (Except.error e)).colors = [] ∧
    (extractColorsFromProductImage (Except.error e)).summary = defaultFailureSummary ∧
    (extractColorsFromProductImage (Except.ok [])).success = false ∧
    (extractColorsFromProductImage (Except.ok [])).summary = defaultFailureSummary ∧
    defaultFailureSummary.lookup "dominant_color" = some Val.vnull ∧
    defaultFailureSummary.lookup "overall_tone" = some (Val.vstr "unknown") ∧
    defaultFailureSummary.lookup "overall_hue" = some (Val.vstr "unknown") ∧
    defaultFailureSummary.lookup "overall_shade" = some (Val.vstr "unknown") ∧
    defaultFailureSummary.lookup "color_count" = some (Val.vnat 0) ∧
    defaultFailureSummary.lookup "neutral_colors" = some (Val.vnat 0) := by
  refine ⟨rfl, rfl, rfl, rfl, rfl, ?_, ?_, ?_, ?_, ?_, ?_⟩ <;> with_unfolding_all decide

/-- C6: any percentage strictly above 50 makes the background classifier
return true, whatever the analysis record holds. -/
theorem c6_high_percentage_background (percentage : ℚ) (analysis : Analysis)
    (h : percentage > 50) : isBackgroundColor percentage analysis = true := by
  unfold isBackgroundColor
  split_ifs with h1 h2 h3 h4 <;> simp_all

/-- C6 witness at percentage 60 and a concrete analysis record. -/
theorem c6_high_percentage_background_witness :
    (60 : ℚ) > 50 ∧
      isBackgroundColor 60 ⟨"red", "red", "dark", "muted", "warm", false, 0, 0⟩ = true :=
  ⟨by norm_num,
    c6_high_percentage_background 60 ⟨"red", "red", "dark", "muted", "warm", false, 0, 0⟩
      (by norm_num)⟩

/-- C7: for any requested palette size of at least one and any clustering
outcomes, the extractor returns at most paletteSize entries; both paths
truncate and never pad. -/
theorem c7_palette_size_bound (paletteSize : ℕ) (h : 1 ≤ paletteSize)
    (primary fallback : Option (List RawColor)) :
    (extractColorsFromImage paletteSize primary fallback).length ≤ paletteSize := by
  have hsk : ∀ opt, (sklearnExtract opt paletteSize).length ≤ paletteSize := by
    intro opt
    cases opt with
    | none => simp [sklearnExtract]
    | some raws =>
      simp only [sklearnExtract, sklearnProcess, List.length_take]
      omega
  cases primary with
  | none => exact hsk fallback
  | some raws =>
    simp only [extractColorsFromImage]
    split
    · exact hsk fallback
    · simp only [List.length_take]
      omega

/-- C7 witness at palette size 2 with concrete cluster lists. -/
theorem c7_palette_size_bound_witness :
    1 ≤ 2 ∧
      (extractColorsFromImage 2 (some [⟨some (1, 2, 3), 40⟩, ⟨some (4, 5, 6), 30⟩,
        ⟨some (7, 8, 9), 30⟩]) none).length ≤ 2 :=
  ⟨by norm_num,
    c7_palette_size_bound 2 (by norm_num) (some [⟨some (1, 2, 3), 40⟩, ⟨some (4, 5, 6), 30⟩,
      ⟨some (7, 8, 9), 30⟩]) none⟩

/-- C8: the fallback path is deterministic; two engine invocations on
identical pixel grids, with the clustering backend called at the fixed seed
both times, produce identical colors lists and identical summaries. -/
theorem c8_fallback_two_run_equal (kmeans : ℕ → ℕ → List (ℕ × ℕ × ℕ) → List RawColor)
    (paletteSize : ℕ) (pixels1 pixels2 : List (ℕ × ℕ × ℕ)) (h : pixels1 = pixels2) :
    engineRunFallback kmeans paletteSize pixels1 = engineRunFallback kmeans paletteSize pixels2 := by
  rw [h]

/-- C8 witness with a concrete backend and pixel grid. -/
theorem c8_fallback_two_run_equal_witness :
    ([(7, 7, 7)] : List (ℕ × ℕ × ℕ)) = [(7, 7, 7)] ∧
      engineRunFallback (fun _ _ _ => [⟨some (7, 7, 7), 100⟩]) 5 [(7, 7, 7)] =
        engineRunFallback (fun _ _ _ => [⟨some (7, 7, 7), 100⟩]) 5 [(7, 7, 7)] :=
  ⟨rfl, c8_fallback_two_run_equal (fun _ _ _ => [⟨some (7, 7, 7), 100⟩]) 5 [(7, 7, 7)] [(7, 7, 7)] rfl⟩

set_option maxRecDepth 100000 in
/-- C2 (counterexample): an all-background two-entry palette on which the
background-removal fallback keeps only the first entry, not the full
palette; the full-palette score order would have preferred the second
entry. -/
theorem c2_fallback_counterexample :
    (processColor (200, 200, 200) 60).is_background = true ∧
    (processColor (200, 0, 0) 55).is_background = true ∧
    (removeBackgroundColor [processColor (200, 200, 200) 60, processColor (200, 0, 0) 55]).map
        (fun c => c.rgb) = [(200, 200, 200)] ∧
    (removeBackgroundColor [processColor (200, 200, 200) 60, processColor (200, 0, 0) 55]).length ≠
      [processColor (200, 200, 200) 60, processColor (200, 0, 0) 55].length ∧
    colorScore (processColor (200, 200, 200) 60) < colorScore (processColor (200, 0, 0) 55) := by
  with_unfolding_all decide

/-- C2 (amended): when every entry of a non-empty enriched palette is
flagged background, the removal step keeps exactly the FIRST entry (not the
full palette) as the candidate set, and the dominant color of the summary is
non-null; the dominant is null only for the empty palette. -/
theorem c2_first_entry_fallback (c : ColorData) (cs : List ColorData)
    (hall : ∀ x ∈ c :: cs, x.is_background = true) :
    removeBackgroundColor (c :: cs) = [c] ∧
    (getDominantColorsSummary (c :: cs)).lookup "dominant_color" ≠ some Val.vnull ∧
    (getDominantColorsSummary []).lookup "dominant_color" = some Val.vnull := by
  refine ⟨?_, ?_, by with_unfolding_all rfl⟩
  · have hfil : (c :: cs).filter (fun x => !x.is_background) = [] := by
      rw [List.filter_eq_nil_iff]
      intro a ha
      simp [hall a ha]
    simp [removeBackgroundColor, hfil]
  · have hx : ∃ d, (getDominantColorsSummary (c :: cs)).lookup "dominant_color" =
        some (Val.vdom d) := ⟨_, by with_unfolding_all rfl⟩
    obtain ⟨d, hd⟩ := hx
    rw [hd]
    simp

set_option maxRecDepth 100000 in
/-- C2 witness: a one-entry all-background palette. -/
theorem c2_first_entry_fallback_witness :
    (∀ x ∈ [processColor (200, 200, 200) 60], x.is_background = true) ∧
      (removeBackgroundColor [processColor (200, 200, 200) 60] = [processColor (200, 200, 200) 60] ∧
        (getDominantColorsSummary [processColor (200, 200, 200) 60]).lookup "dominant_color" ≠
          some Val.vnull ∧
        (getDominantColorsSummary []).lookup "dominant_color" = some Val.vnull) :=
  ⟨by with_unfolding_all decide,
    c2_first_entry_fallback (processColor (200, 200, 200) 60) []
      (by with_unfolding_all decide)⟩

set_option maxRecDepth 100000 in
/-- C4 (counterexample): on the primary path a failing cluster slot is
skipped, so a two-cluster input yields a one-entry palette with no mid-gray
placeholder anywhere. -/
theorem c4_primary_drop_counterexample :
    (extractColorsFromImage 5 (some [⟨none, 30⟩, ⟨some (10, 20, 30), 40⟩]) (some [])).length = 1 ∧
    ∀ c ∈ extractColorsFromImage 5 (some [⟨none, 30⟩, ⟨some (10, 20, 30), 40⟩]) (some []),
      c.rgb ≠ (128, 128, 128) := by
  with_unfolding_all decide

/-- C4 (amended): on the FALLBACK path a failing cluster slot is replaced in
place by the neutral mid-gray placeholder with percentage 0, and the palette
length is exactly the truncated cluster count, so per-color failure never
shortens the fallback palette. -/
theorem c4_fallback_substitution (raws : List RawColor) (n i : ℕ) (c : RawColor)
    (hi : i < n) (hc : raws[i]? = some c) (hfail : c.conv = none) :
    (sklearnExtract (some raws) n)[i]? = some grayFallbackEntry ∧
    (sklearnExtract (some raws) n).length = min n raws.length ∧
    grayFallbackEntry.rgb = (128, 128, 128) ∧ grayFallbackEntry.percentage = 0 := by
  refine ⟨?_, ?_, rfl, rfl⟩
  · show ((raws.map _).take n)[i]? = some grayFallbackEntry
    rw [List.getElem?_take, if_pos hi, List.getElem?_map, hc]
    simp [hfail]
  · show ((raws.map _).take n).length = min n raws.length
    simp [List.length_take]

/-- C4 witness: one failing cluster at index 0. -/
theorem c4_fallback_substitution_witness :
    0 < 5 ∧ ([⟨none, 3⟩] : List RawColor)[0]? = some ⟨none, 3⟩ ∧
      ((sklearnExtract (some [⟨none, 3⟩]) 5)[0]? = some grayFallbackEntry ∧
        (sklearnExtract (some [⟨none, 3⟩]) 5).length = min 5 [(⟨none, 3⟩ : RawColor)].length ∧
        grayFallbackEntry.rgb = (128, 128, 128) ∧ grayFallbackEntry.percentage = 0) :=
  ⟨by norm_num, rfl, c4_fallback_substitution [⟨none, 3⟩] 5 0 ⟨none, 3⟩ (by norm_num) rfl rfl⟩

/-- Every palette entry is counted in exactly one of the warm and cool
tallies of the summary loop. -/
theorem warm_cool_partition (l : List ColorData) :
    l.countP (fun c => c.analysis.temperature == "warm") +
      l.countP (fun c => !(c.analysis.temperature == "warm")) = l.length := by
  induction l with
  | nil => rfl
  | cons c cs ih =>
    simp only [List.countP_cons, List.length_cons]
    cases hb : (c.analysis.temperature == "warm") <;> simp [hb] <;> omega

/-- C9: for every non-empty palette the summary reports warm_colors,
cool_colors and color_count with warm + cool = count; the analyzer only ever
emits the temperatures warm and cool. -/
theorem c9_warm_cool_count (c : ColorData) (cs : List ColorData) (h : c :: cs ≠ []) :
    (getDominantColorsSummary (c :: cs)).lookup "warm_colors" =
      some (Val.vnat (warmCount (c :: cs))) ∧
    (getDominantColorsSummary (c :: cs)).lookup "cool_colors" =
      some (Val.vnat (coolCount (c :: cs))) ∧
    (getDominantColorsSummary (c :: cs)).lookup "color_count" =
      some (Val.vnat (c :: cs).length) ∧
    warmCount (c :: cs) + coolCount (c :: cs) = (c :: cs).length ∧
    (∀ rgb hsl hsv, (analyzeColor rgb hsl hsv).temperature = "warm" ∨
      (analyzeColor rgb hsl hsv).temperature = "cool") := by
  refine ⟨by with_unfolding_all rfl, by with_unfolding_all rfl, by with_unfolding_all rfl,
    warm_cool_partition (c :: cs), fun rgb hsl hsv => ?_⟩
  show temperatureOf _ = "warm" ∨ temperatureOf _ = "cool"
  unfold temperatureOf
  split_ifs <;> simp

set_option maxRecDepth 100000 in
/-- C9 witness: a concrete one-entry palette. -/
theorem c9_warm_cool_count_witness :
    ([processColor (10, 20, 30) 100] : List ColorData) ≠ [] ∧
      ((getDominantColorsSummary [processColor (10, 20, 30) 100]).lookup "warm_colors" =
          some (Val.vnat (warmCount [processColor (10, 20, 30) 100])) ∧
        (getDominantColorsSummary [processColor (10, 20, 30) 100]).lookup "cool_colors" =
          some (Val.vnat (coolCount [processColor (10, 20, 30) 100])) ∧
        (getDominantColorsSummary [processColor (10, 20, 30) 100]).lookup "color_count" =
          some (Val.vnat [processColor (10, 20, 30) 100].length) ∧
        warmCount [processColor (10, 20, 30) 100] + coolCount [processColor (10, 20, 30) 100] =
          [processColor (10, 20, 30) 100].length ∧
        (∀ rgb hsl hsv, (analyzeColor rgb hsl hsv).temperature = "warm" ∨
          (analyzeColor rgb hsl hsv).temperature = "cool")) :=
  ⟨List.cons_ne_nil _ _, c9_warm_cool_count (processColor (10, 20, 30) 100) []
    (List.cons_ne_nil _ _)⟩

/-- The tone chain only emits the ten fixed tone names. -/
theorem toneOf_mem (l s hDeg : ℚ) :
    toneOf l s hDeg ∈ (["black", "white", "neutral", "red", "orange", "yellow", "green",
      "blue", "purple", "pink"] : List String) := by
  unfold toneOf
  split_ifs <;> simp

/-- The tone chain never emits cyan. -/
theorem toneOf_ne_cyan (l s hDeg : ℚ) : toneOf l s hDeg ≠ "cyan" := by
  unfold toneOf
  split_ifs <;> simp

/-- A key absent from an association list stays absent after lookups when
every stored key differs from it. -/
theorem lookup_none_of_keys (m : List (String × ℕ)) (c : String)
    (h : ∀ p ∈ m, c ≠ p.1) : m.lookup c = none := by
  induction m with
  | nil => rfl
  | cons p rest ih =>
    rcases p with ⟨a, b⟩
    rw [List.lookup_cons]
    have hne : (c == a) = false :=
      beq_eq_false_iff_ne.mpr (h (a, b) (List.mem_cons_self _ _))
    simp only [hne]
    exact ih (fun q hq => h q (List.mem_cons_of_mem _ hq))

/-- Conversely, a none lookup means no stored key equals the key. -/
theorem keys_of_lookup_none (m : List (String × ℕ)) (c : String)
    (h : m.lookup c = none) : ∀ p ∈ m, c ≠ p.1 := by
  induction m with
  | nil => simp
  | cons p rest ih =>
    rcases p with ⟨a, b⟩
    rw [List.lookup_cons] at h
    cases hc : (c == a)
    · rw [hc] at h
      intro q hq
      rcases List.mem_cons.mp hq with rfl | hq2
      · exact beq_eq_false_iff_ne.mp hc
      · exact ih h q hq2
    · rw [hc] at h
      exact absurd h (by simp)

/-- Every key of a bumped counting dictionary is the bumped key or an
existing key. -/
theorem bump_keys (m : List (String × ℕ)) (k : String) :
    ∀ p ∈ bump m k, p.1 = k ∨ ∃ q ∈ m, p.1 = q.1 := by
  intro p hp
  unfold bump at hp
  split at hp
  · obtain ⟨q, hq, hfq⟩ := List.mem_map.mp hp
    right
    exact ⟨q, hq, by rw [← hfq]; split <;> rfl⟩
  · rcases List.mem_append.mp hp with h1 | h2
    · exact Or.inr ⟨p, h1, rfl⟩
    · left
      have hpk : p = (k, 1) := by simpa using h2
      rw [hpk]

/-- Bumping a key different from c leaves an absent key c absent. -/
theorem lookup_bump_none (m : List (String × ℕ)) (c k : String) (hck : c ≠ k)
    (hm : m.lookup c = none) : (bump m k).lookup c = none := by
  apply lookup_none_of_keys
  intro p hp
  rcases bump_keys m k p hp with h1 | ⟨q, hq, hpq⟩
  · rw [h1]; exact hck
  · rw [hpq]; exact keys_of_lookup_none m c hm q hq

/-- Folding the counting dictionary over entries whose tones are never cyan
keeps the cyan key absent. -/
theorem toneDist_aux (l : List ColorData) :
    ∀ acc : List (String × ℕ), (∀ x ∈ l, x.analysis.tone ≠ "cyan") →
      acc.lookup "cyan" = none →
      (l.foldl (fun m x => bump m x.analysis.tone) acc).lookup "cyan" = none := by
  induction l with
  | nil => exact fun acc _ hacc => hacc
  | cons x xs ih =>
    intro acc hl hacc
    rw [List.foldl_cons]
    exact ih _ (fun y hy => hl y (List.mem_cons_of_mem _ hy))
      (lookup_bump_none acc "cyan" x.analysis.tone
        (fun he => hl x (List.mem_cons_self _ _) he.symm) hacc)

/-- C10: the analyzer tone is always one of the ten fixed names and never
cyan, although the matcher family detection does produce a cyan family; the
tone distribution of any pipeline palette therefore never contains a cyan
key. -/
theorem c10_tone_no_cyan :
    (∀ rgb hsl hsv, (analyzeColor rgb hsl hsv).tone ∈
      (["black", "white", "neutral", "red", "orange", "yellow", "green", "blue", "purple",
        "pink"] : List String)) ∧
    colorFamily (0, 255, 255) = "cyan" ∧
    ∀ entries : List ((ℤ × ℤ × ℤ) × ℚ),
      (toneDistribution (entries.map (fun e => processColor e.1 e.2))).lookup "cyan" = none := by
  refine ⟨fun rgb hsl hsv => toneOf_mem _ _ _, by with_unfolding_all decide, fun entries => ?_⟩
  apply toneDist_aux
  · intro x hx
    obtain ⟨e, he, rfl⟩ := List.mem_map.mp hx
    exact toneOf_ne_cyan _ _ _
  · rfl

set_option maxHeartbeats 1000000 in
/-- The family chain only returns one of the eleven family names. -/
theorem familyOf_cases (l s hDeg : ℚ) :
    familyOf l s hDeg = "white" ∨ familyOf l s hDeg = "black" ∨ familyOf l s hDeg = "gray" ∨
    familyOf l s hDeg = "red" ∨ familyOf l s hDeg = "orange" ∨ familyOf l s hDeg = "yellow" ∨
    familyOf l s hDeg = "green" ∨ familyOf l s hDeg = "cyan" ∨ familyOf l s hDeg = "blue" ∨
    familyOf l s hDeg = "purple" ∨ familyOf l s hDeg = "pink" := by
  unfold familyOf
  split_ifs <;> simp

/-- The color family of any rgb triple is one of the eleven family names. -/
theorem colorFamily_cases (rgb : ℤ × ℤ × ℤ) :
    colorFamily rgb = "white" ∨ colorFamily rgb = "black" ∨ colorFamily rgb = "gray" ∨
    colorFamily rgb = "red" ∨ colorFamily rgb = "orange" ∨ colorFamily rgb = "yellow" ∨
    colorFamily rgb = "green" ∨ colorFamily rgb = "cyan" ∨ colorFamily rgb = "blue" ∨
    colorFamily rgb = "purple" ∨ colorFamily rgb = "pink" :=
  familyOf_cases _ _ _

/-- The squared adjustment factor is positive. -/
theorem factorSq_pos (fam name : String) : 0 < factorSq fam name := by
  unfold factorSq
  split_ifs <;> norm_num

/-- The squared RGB distance is nonnegative. -/
theorem sqDist_nonneg_int (a e : ℤ × ℤ × ℤ) : (0 : ℤ) ≤ sqDist a e := by
  unfold sqDist
  positivity

/-- The squared family-adjusted distance is nonnegative. -/
theorem adjSqDist_nonneg (fam : String) (rgb : ℤ × ℤ × ℤ) (e : String × ℤ × ℤ × ℤ) :
    0 ≤ adjSqDist fam rgb e := by
  unfold adjSqDist
  have h1 : (0 : ℚ) ≤ (sqDist rgb e.2 : ℚ) := by exact_mod_cast sqDist_nonneg_int rgb e.2
  exact mul_nonneg h1 (le_of_lt (factorSq_pos fam e.1))

/-- Folding the minimum search from a some accumulator keeps a some result
that never exceeds the starting minimum. -/
theorem foldStep_le (fam : String) (rgb : ℤ × ℤ × ℤ) (l : List (String × ℤ × ℤ × ℤ)) :
    ∀ (nm : String) (m : ℚ),
      ∃ mf, (l.foldl (stepEntry fam rgb) (nm, some m)).2 = some mf ∧ mf ≤ m := by
  induction l with
  | nil => exact fun nm m => ⟨m, rfl, le_refl m⟩
  | cons e tl ih =>
    intro nm m
    rw [List.foldl_cons]
    by_cases hd : adjSqDist fam rgb e < m
    · have hstep : stepEntry fam rgb (nm, some m) e = (e.1, some (adjSqDist fam rgb e)) :=
        if_pos hd
      rw [hstep]
      obtain ⟨mf, h1, h2⟩ := ih e.1 (adjSqDist fam rgb e)
      exact ⟨mf, h1, le_trans h2 (le_of_lt hd)⟩
    · have hstep : stepEntry fam rgb (nm, some m) e = (nm, some m) := if_neg hd
      rw [hstep]
      exact ih nm m

/-- The minimum search result is bounded by the adjusted distance of any
catalog entry it visits. -/
theorem fold_le_of_mem (fam : String) (rgb : ℤ × ℤ × ℤ) (l : List (String × ℤ × ℤ × ℤ)) :
    ∀ (acc : String × Option ℚ) (e : String × ℤ × ℤ × ℤ), e ∈ l →
      ∃ mf, (l.foldl (stepEntry fam rgb) acc).2 = some mf ∧ mf ≤ adjSqDist fam rgb e := by
  induction l with
  | nil => intro acc e he; exact absurd he (List.not_mem_nil e)
  | cons x tl ih =>
    intro acc e he
    rw [List.foldl_cons]
    rcases List.mem_cons.mp he with rfl | htl
    · rcases acc with ⟨nm, mo⟩
      cases mo with
      | none =>
        have hstep : stepEntry fam rgb (nm, none) e = (e.1, some (adjSqDist fam rgb e)) := rfl
        rw [hstep]
        exact foldStep_le fam rgb tl e.1 (adjSqDist fam rgb e)
      | some m =>
        by_cases hd : adjSqDist fam rgb e < m
        · have hstep : stepEntry fam rgb (nm, some m) e = (e.1, some (adjSqDist fam rgb e)) :=
            if_pos hd
          rw [hstep]
          exact foldStep_le fam rgb tl e.1 (adjSqDist fam rgb e)
        · have hstep : stepEntry fam rgb (nm, some m) e = (nm, some m) := if_neg hd
          rw [hstep]
          obtain ⟨mf, h1, h2⟩ := foldStep_le fam rgb tl nm m
          exact ⟨mf, h1, le_trans h2 (not_lt.mp hd)⟩
    · exact ih (stepEntry fam rgb acc x) e htl

/-- The minimum search only ever stores nonnegative squared distances. -/
theorem fold_nonneg (fam : String) (rgb : ℤ × ℤ × ℤ) (l : List (String × ℤ × ℤ × ℤ)) :
    ∀ acc : String × Option ℚ, (∀ m, acc.2 = some m → 0 ≤ m) →
      ∀ mf, (l.foldl (stepEntry fam rgb) acc).2 = some mf → 0 ≤ mf := by
  induction l with
  | nil => intro acc hacc mf h; exact hacc mf h
  | cons x tl ih =>
    intro acc hacc
    rw [List.foldl_cons]
    apply ih
    intro m hm
    rcases acc with ⟨nm, mo⟩
    cases mo with
    | none =>
      have hstep : stepEntry fam rgb (nm, none) x = (x.1, some (adjSqDist fam rgb x)) := rfl
      rw [hstep] at hm
      obtain rfl := Option.some.inj hm
      exact adjSqDist_nonneg fam rgb x
    | some m0 =>
      by_cases hd : adjSqDist fam rgb x < m0
      · have hstep : stepEntry fam rgb (nm, some m0) x = (x.1, some (adjSqDist fam rgb x)) :=
          if_pos hd
        rw [hstep] at hm
        obtain rfl := Option.some.inj hm
        exact adjSqDist_nonneg fam rgb x
      · have hstep : stepEntry fam rgb (nm, some m0) x = (nm, some m0) := if_neg hd
        rw [hstep] at hm
        obtain rfl := Option.some.inj hm
        exact hacc m0 rfl

/-- Squared difference of two channels in [0,255] is at most 255 squared. -/
theorem sqdiff_le (a b : ℤ) (h0 : 0 ≤ a) (h255 : a ≤ 255) (hb0 : 0 ≤ b) (hb255 : b ≤ 255) :
    (a - b)^2 ≤ 65025 := by
  have h1 : (0 : ℤ) ≤ 255 - (a - b) := by omega
  have h2 : (0 : ℤ) ≤ 255 + (a - b) := by omega
  nlinarith [mul_nonneg h1 h2]

set_option maxRecDepth 1000000 in
/-- If some catalog entry within channel range carries the plain family
bonus (squared factor 1/4), the matcher minimum stays within the claimed
normalization bound. -/
theorem closest_le_of_entry (r g b : ℤ) (h0r : 0 ≤ r) (hr : r ≤ 255) (h0g : 0 ≤ g)
    (hg : g ≤ 255) (h0b : 0 ≤ b) (hb : b ≤ 255) (e : String × ℤ × ℤ × ℤ)
    (he : e ∈ cssColors) (he1 : 0 ≤ e.2.1) (he2 : e.2.1 ≤ 255) (he3 : 0 ≤ e.2.2.1)
    (he4 : e.2.2.1 ≤ 255) (he5 : 0 ≤ e.2.2.2) (he6 : e.2.2.2 ≤ 255)
    (hfac : factorSq (colorFamily (r, g, b)) e.1 = 1/4) :
    (findClosestCssColor (r, g, b)).2 ≤ (44167/100)^2 := by
  obtain ⟨mf, h1, h2⟩ :=
    fold_le_of_mem (colorFamily (r, g, b)) (r, g, b) cssColors ("black", none) e he
  have hval : (findClosestCssColor (r, g, b)).2 = mf := by
    show (cssColors.foldl (stepEntry (colorFamily (r, g, b)) (r, g, b)) ("black", none)).2.getD 0 = mf
    rw [h1]
    rfl
  rw [hval]
  have h1d : (r - e.2.1)^2 ≤ 65025 := sqdiff_le _ _ h0r hr he1 he2
  have h2d : (g - e.2.2.1)^2 ≤ 65025 := sqdiff_le _ _ h0g hg he3 he4
  have h3d : (b - e.2.2.2)^2 ≤ 65025 := sqdiff_le _ _ h0b hb he5 he6
  have hsqz : sqDist (r, g, b) e.2 ≤ 195075 := by
    unfold sqDist
    linarith
  have hsq : (sqDist (r, g, b) e.2 : ℚ) ≤ 195075 := by exact_mod_cast hsqz
  have hadj : adjSqDist (colorFamily (r, g, b)) (r, g, b) e =
      (sqDist (r, g, b) e.2 : ℚ) * (1/4) := by
    unfold adjSqDist
    rw [hfac]
  rw [hadj] at h2
  have hq : (sqDist (r, g, b) e.2 : ℚ) * (1/4) ≤ 195075 * (1/4) := by linarith
  have hfin : (195075 : ℚ) * (1/4) ≤ (44167/100)^2 := by norm_num
  linarith

set_option maxRecDepth 1000000 in
set_option maxHeartbeats 2000000 in
/-- C3: the minimal family-adjusted catalog distance for any in-range RGB
triple lies within [0, 441.67] (stated on squared distances: the stored
minimum lies in [0, (44167/100)^2]), so the normalized referenceDistance is
in [0,1]. -/
theorem c3_reference_distance_bounds (r g b : ℤ) (h0r : 0 ≤ r) (hr : r ≤ 255)
    (h0g : 0 ≤ g) (hg : g ≤ 255) (h0b : 0 ≤ b) (hb : b ≤ 255) :
    0 ≤ (findClosestCssColor (r, g, b)).2 ∧
    (findClosestCssColor (r, g, b)).2 ≤ (44167/100)^2 := by
  have hnn := fold_nonneg (colorFamily (r, g, b)) (r, g, b) cssColors ("black", none)
      (fun m hm => Option.noConfusion hm)
  constructor
  · show 0 ≤ (cssColors.foldl (stepEntry (colorFamily (r, g, b)) (r, g, b)) ("black", none)).2.getD 0
    cases hfold : (cssColors.foldl (stepEntry (colorFamily (r, g, b)) (r, g, b)) ("black", none)).2 with
    | none => norm_num
    | some m => simpa using hnn m hfold
  · rcases colorFamily_cases (r, g, b) with hf | hf | hf | hf | hf | hf | hf | hf | hf | hf | hf
    · exact closest_le_of_entry r g b h0r hr h0g hg h0b hb ("white", 255, 255, 255)
        (by with_unfolding_all decide) (by decide) (by decide) (by decide) (by decide)
        (by decide) (by decide) (by rw [hf]; with_unfolding_all decide)
    · exact closest_le_of_entry r g b h0r hr h0g hg h0b hb ("black", 0, 0, 0)
        (by with_unfolding_all decide) (by decide) (by decide) (by decide) (by decide)
        (by decide) (by decide) (by rw [hf]; with_unfolding_all decide)
    · exact closest_le_of_entry r g b h0r hr h0g hg h0b hb ("gray", 128, 128, 128)
        (by with_unfolding_all decide) (by decide) (by decide) (by decide) (by decide)
        (by decide) (by decide) (by rw [hf]; with_unfolding_all decide)
    · exact closest_le_of_entry r g b h0r hr h0g hg h0b hb ("red", 255, 0, 0)
        (by with_unfolding_all decide) (by decide) (by decide) (by decide) (by decide)
        (by decide) (by decide) (by rw [hf]; with_unfolding_all decide)
    · exact closest_le_of_entry r g b h0r hr h0g hg h0b hb ("orange", 255, 165, 0)
        (by with_unfolding_all decide) (by decide) (by decide) (by decide) (by decide)
        (by decide) (by decide) (by rw [hf]; with_unfolding_all decide)
    · exact closest_le_of_entry r g b h0r hr h0g hg h0b hb ("yellow", 255, 255, 0)
        (by with_unfolding_all decide) (by decide) (by decide) (by decide) (by decide)
        (by decide) (by decide) (by rw [hf]; with_unfolding_all decide)
    · exact closest_le_of_entry r g b h0r hr h0g hg h0b hb ("green", 0, 128, 0)
        (by with_unfolding_all decide) (by decide) (by decide) (by decide) (by decide)
        (by decide) (by decide) (by rw [hf]; with_unfolding_all decide)
    · exact closest_le_of_entry r g b h0r hr h0g hg h0b hb ("cyan", 0, 255, 255)
        (by with_unfolding_all decide) (by decide) (by decide) (by decide) (by decide)
        (by decide) (by decide) (by rw [hf]; with_unfolding_all decide)
    · exact closest_le_of_entry r g b h0r hr h0g hg h0b hb ("blue", 0, 0, 255)
        (by with_unfolding_all decide) (by decide) (by decide) (by decide) (by decide)
        (by decide) (by decide) (by rw [hf]; with_unfolding_all decide)
    · exact closest_le_of_entry r g b h0r hr h0g hg h0b hb ("purple", 128, 0, 128)
        (by with_unfolding_all decide) (by decide) (by decide) (by decide) (by decide)
        (by decide) (by decide) (by rw [hf]; with_unfolding_all decide)
    · exact closest_le_of_entry r g b h0r hr h0g hg h0b hb ("pink", 255, 192, 203)
        (by with_unfolding_all decide) (by decide) (by decide) (by decide) (by decide)
        (by decide) (by decide) (by rw [hf]; with_unfolding_all decide)

/-- C3 witness at the in-range triple (7,7,7). -/
theorem c3_reference_distance_bounds_witness :
    ((0 : ℤ) ≤ 7 ∧ (7 : ℤ) ≤ 255) ∧
      (0 ≤ (findClosestCssColor (7, 7, 7)).2 ∧
        (findClosestCssColor (7, 7, 7)).2 ≤ (44167/100)^2) :=
  ⟨⟨by decide, by decide⟩,
    c3_reference_distance_bounds 7 7 7 (by decide) (by decide) (by decide) (by decide)
      (by decide) (by decide)⟩
